import Mathlib

/-!
Verification of the coordinate-conversion core and data-handling helpers of
the satellite-visualization program.

The embedding models the Python sources over the real numbers:
`math.atan2`, `math.radians`, `math.degrees` are given their exact
mathematical definitions, machine floats become elements of `ℝ`, and the
fixed five-pass refinement loop of `cartesian_to_geodetic` becomes a
five-fold function iteration.  String- and list-processing code
(`parse_tle`, the N2YO request guards) is embedded computably.
-/

namespace CoordinateConverter

noncomputable section

/-- WGS84 semi-major axis in meters (`a = 6378137.0` in the source). -/
def a : ℝ := 6378137.0

/-- WGS84 flattening (`f = 1 / 298.257223563` in the source). -/
def f : ℝ := 1 / 298.257223563

/-- First eccentricity squared (`e2 = 2 * f - f * f` in the source). -/
def e2 : ℝ := 2 * f - f * f

/-- Real-number semantics of Python `math.radians`. -/
def radians (d : ℝ) : ℝ := d * (Real.pi / 180)

/-- Real-number semantics of Python `math.degrees`. -/
def degrees (r : ℝ) : ℝ := r * (180 / Real.pi)

/-- Real-number semantics of Python `math.atan2 y x` (C `atan2` branch
structure, with `atan2 0 0 = 0` as Python returns). -/
def atan2 (y x : ℝ) : ℝ :=
  if 0 < x then Real.arctan (y / x)
  else if x < 0 then
    (if 0 ≤ y then Real.arctan (y / x) + Real.pi else Real.arctan (y / x) - Real.pi)
  else
    (if 0 < y then Real.pi / 2 else if y < 0 then -(Real.pi / 2) else 0)

/-- The prime-vertical radius of curvature as computed inside both source
functions: `N = a / math.sqrt(1 - e2 * math.sin(lat) * math.sin(lat))`. -/
def Nof (lat : ℝ) : ℝ := a / Real.sqrt (1 - e2 * Real.sin lat * Real.sin lat)

/-- The altitude update of the refinement loop:
`alt = p / math.cos(lat) - N`. -/
def altOf (p lat : ℝ) : ℝ := p / Real.cos lat - Nof lat

/-- One pass of the source's `for _ in range(5)` loop in
`cartesian_to_geodetic`: the state is the pair `(lat, alt)`; the body reads
only `lat`, recomputes `N` and `alt`, and refines `lat`. -/
def geoStep (z_m p : ℝ) (s : ℝ × ℝ) : ℝ × ℝ :=
  let lat := s.1
  let N := Nof lat
  let alt := altOf p lat
  (atan2 z_m (p * (1 - e2 * N / (N + alt))), alt)

/-- `p = math.sqrt(x_m * x_m + y_m * y_m)` for kilometer inputs `x`, `y`. -/
def pOf (x y : ℝ) : ℝ := Real.sqrt ((x * 1000) * (x * 1000) + (y * 1000) * (y * 1000))

/-- Embedding of `CoordinateConverter.cartesian_to_geodetic` from
`coordinate_converter.py`: km → m, one-shot `lon = atan2 y x`,
`p = sqrt(x²+y²)`, initial latitude `atan2 z (p*(1-e2))`, five iterations of
`geoStep`, then degrees/km conversion.  The Python `alt` variable is
unassigned before the loop and never read before being written, so the
iteration state starts with an arbitrary second component (`0`). -/
def cartesian_to_geodetic (x y z : ℝ) : ℝ × ℝ × ℝ :=
  let z_m := z * 1000
  let lon := atan2 (y * 1000) (x * 1000)
  let p := pOf x y
  let s := (geoStep z_m p)^[5] (atan2 z_m (p * (1 - e2)), 0)
  (degrees s.1, degrees lon, s.2 / 1000)

/-- Embedding of `CoordinateConverter.geodetic_to_cartesian` from
`coordinate_converter.py`. -/
def geodetic_to_cartesian (lat lon alt : ℝ) : ℝ × ℝ × ℝ :=
  let lat_rad := radians lat
  let lon_rad := radians lon
  let alt_m := alt * 1000
  let N := a / Real.sqrt (1 - e2 * Real.sin lat_rad * Real.sin lat_rad)
  let x := (N + alt_m) * Real.cos lat_rad * Real.cos lon_rad
  let y := (N + alt_m) * Real.cos lat_rad * Real.sin lon_rad
  let z := (N * (1 - e2) + alt_m) * Real.sin lat_rad
  (x / 1000, y / 1000, z / 1000)

/-- The latitude value held by the loop state of `cartesian_to_geodetic`
after `k` passes over input `(x, y, z)` (in km). -/
def latAt (x y z : ℝ) (k : ℕ) : ℝ :=
  ((geoStep (z * 1000) (pOf x y))^[k] (atan2 (z * 1000) (pOf x y * (1 - e2)), 0)).1

/-- Well-definedness of every square root and division executed by
`cartesian_to_geodetic` on input `(x, y, z)`: each `sqrt` argument that is
fed into a division is positive (so Python's `math.sqrt` succeeds and the
quotient `a / sqrt ...` does not divide by zero), and in each of the five
passes the divisors `cos lat` (for `p / cos lat`) and `N + alt` (for
`e2 * N / (N + alt)`) are nonzero. -/
def CartGeoDefined (x y z : ℝ) : Prop :=
  0 ≤ (x * 1000) * (x * 1000) + (y * 1000) * (y * 1000) ∧
  ∀ k < 5,
    0 < 1 - e2 * Real.sin (latAt x y z k) * Real.sin (latAt x y z k) ∧
    Real.cos (latAt x y z k) ≠ 0 ∧
    Nof (latAt x y z k) + altOf (pOf x y) (latAt x y z k) ≠ 0

/-- Euclidean distance of a Cartesian point from the origin. -/
def distOrigin (v : ℝ × ℝ × ℝ) : ℝ :=
  Real.sqrt (v.1 * v.1 + v.2.1 * v.2.1 + v.2.2 * v.2.2)

end

lemma f_pos : 0 < f := by norm_num [f]

lemma e2_pos : 0 < e2 := by norm_num [e2, f]

lemma e2_lt_one : e2 < 1 := by norm_num [e2, f]

lemma radians_zero : radians 0 = 0 := by simp [radians]

lemma atan2_zero_of_pos {x : ℝ} (hx : 0 < x) : atan2 0 x = 0 := by
  simp [atan2, hx, Real.arctan_zero]

lemma atan2_zero_zero : atan2 0 0 = 0 := by
  norm_num [atan2]

lemma a_pos : 0 < a := by norm_num [a]

lemma a_ne_zero : a ≠ 0 := ne_of_gt a_pos

lemma degrees_zero : degrees 0 = 0 := by simp [degrees]

lemma Nof_zero : Nof 0 = a := by
  rw [Nof]
  norm_num [Real.sin_zero, Real.sqrt_one]

lemma altOf_a_zero : altOf a 0 = 0 := by
  rw [altOf, Nof_zero]
  simp [Real.cos_zero]

lemma a_mul_one_sub_e2_pos : 0 < a * (1 - e2) := by
  have h1 := e2_lt_one
  have h2 := a_pos
  nlinarith

lemma geoStep_zero_fixed : geoStep 0 a (0, 0) = (0, 0) := by
  simp only [geoStep, Nof_zero, altOf_a_zero]
  rw [add_zero, mul_div_assoc, div_self a_ne_zero, mul_one]
  rw [atan2_zero_of_pos a_mul_one_sub_e2_pos]

/-- Claim C6: the equator/prime-meridian fixed point.
`geodetic_to_cartesian 0 0 0` has x-coordinate exactly `6378.137` km (the
semi-major axis in kilometers) and y- and z-coordinates within `1e-5` of
zero. -/
theorem geodetic_to_cartesian_equator_fixed_point :
    (geodetic_to_cartesian 0 0 0).1 = 6378.137 ∧
    |(geodetic_to_cartesian 0 0 0).2.1| ≤ 1e-5 ∧
    |(geodetic_to_cartesian 0 0 0).2.2| ≤ 1e-5 := by
  have h : geodetic_to_cartesian 0 0 0 = (6378.137, 0, 0) := by
    simp only [geodetic_to_cartesian, radians_zero, Real.sin_zero, Real.cos_zero]
    norm_num [a]
  rw [h]
  norm_num

noncomputable section

/-- Statement of the spec's step-by-step description of
`geodetic_to_cartesian` (claim C4), written from the spec's words:
radians/meters conversion, `N = a / sqrt(1 - e2 * sin^2 lat)` with
`a = 6378137.0` and `e2 = 2f - f^2` for `f = 1/298.257223563`, the three
products, each divided by 1000. -/
def geodetic_to_cartesian_spec (lat lon alt : ℝ) : ℝ × ℝ × ℝ :=
  let latr := radians lat
  let lonr := radians lon
  let altm := alt * 1000
  let e2s := 2 * f - f ^ 2
  let N := a / Real.sqrt (1 - e2s * Real.sin latr ^ 2)
  ((N + altm) * Real.cos latr * Real.cos lonr / 1000,
   (N + altm) * Real.cos latr * Real.sin lonr / 1000,
   (N * (1 - e2s) + altm) * Real.sin latr / 1000)

/-- Statement of the spec's step-by-step description of
`cartesian_to_geodetic` (claim C3), written from the spec's words: km → m,
one-shot `lon = atan2 y x`, `p = sqrt(x^2 + y^2)`, initial latitude
`atan2 z (p * (1 - e2))`, exactly five refinement passes each recomputing
`N`, `alt` and `lat`, then degrees/km conversion of the final values. -/
def cartesian_to_geodetic_spec (x y z : ℝ) : ℝ × ℝ × ℝ :=
  let xm := x * 1000
  let ym := y * 1000
  let zm := z * 1000
  let e2s := 2 * f - f ^ 2
  let lon := atan2 ym xm
  let p := Real.sqrt (xm * xm + ym * ym)
  let step := fun lat : ℝ =>
    let N := a / Real.sqrt (1 - e2s * Real.sin lat ^ 2)
    let alt := p / Real.cos lat - N
    (atan2 zm (p * (1 - e2s * N / (N + alt))), alt)
  let l0 := atan2 zm (p * (1 - e2s))
  let s1 := step l0
  let s2 := step s1.1
  let s3 := step s2.1
  let s4 := step s3.1
  let s5 := step s4.1
  (degrees s5.1, degrees lon, s5.2 / 1000)

end

lemma one_sub_e2_sin_sq_pos (t : ℝ) : 0 < 1 - e2 * Real.sin t * Real.sin t := by
  have h1 : Real.sin t * Real.sin t ≤ 1 := by
    nlinarith [Real.neg_one_le_sin t, Real.sin_le_one t]
  have h2 := e2_pos
  have h3 := e2_lt_one
  nlinarith

lemma iterate_five_apply (g : ℝ × ℝ → ℝ × ℝ) (s : ℝ × ℝ) :
    g^[5] s = g (g (g (g (g s)))) := rfl

/-- Claim C3: `cartesian_to_geodetic` computes exactly the sequence of
operations the spec describes — one-shot longitude, `p`, the initial
latitude, five refinement passes, and the final unit conversions. -/
theorem cartesian_to_geodetic_follows_spec (x y z : ℝ) :
    cartesian_to_geodetic x y z = cartesian_to_geodetic_spec x y z := by
  simp only [cartesian_to_geodetic, cartesian_to_geodetic_spec, iterate_five_apply,
    geoStep, Nof, altOf, pOf, e2, pow_two, mul_assoc]

/-- Claim C4: `geodetic_to_cartesian` computes exactly the formulas the
spec describes, and its arithmetic is total — the square-root argument
`1 - e2 * sin^2 lat` is positive for every real input, so the function
raises no error. -/
theorem geodetic_to_cartesian_follows_spec (lat lon alt : ℝ) :
    geodetic_to_cartesian lat lon alt = geodetic_to_cartesian_spec lat lon alt ∧
    0 < 1 - e2 * Real.sin (radians lat) * Real.sin (radians lat) := by
  constructor
  · simp only [geodetic_to_cartesian, geodetic_to_cartesian_spec, e2, pow_two, mul_assoc]
  · exact one_sub_e2_sin_sq_pos (radians lat)

/-- Claim C2 (code evaluation at the failing input): at the Earth-center
input `(0, 0, 0)`, the first pass of the refinement loop of
`cartesian_to_geodetic` computes `N + alt = 0` and then divides by it in
`e2 * N / (N + alt)`, so the body's arithmetic is not well-defined there:
the source raises an uncaught `ZeroDivisionError` rather than a defined
degenerate-position error or sentinel. -/
theorem cartesian_to_geodetic_origin_divides_by_zero :
    ¬ CartGeoDefined 0 0 0 := by
  intro h
  have hp : pOf 0 0 = 0 := by
    rw [pOf]
    norm_num [Real.sqrt_zero]
  have hlat : latAt 0 0 0 0 = 0 := by
    rw [latAt, Function.iterate_zero_apply, hp]
    norm_num [atan2_zero_zero]
  have h0 := (h.2 0 (by norm_num)).2.2
  rw [hlat, hp] at h0
  apply h0
  rw [altOf, Nof_zero]
  simp [Real.cos_zero]

/-- Claim C7: the inverse at the reference point.
`cartesian_to_geodetic 6378.137 0 0` returns latitude and longitude within
`1e-5` degrees of `0` and altitude within `0.01` km of `0` (in fact the
embedding returns exactly `(0, 0, 0)`). -/
theorem cartesian_to_geodetic_reference_point :
    |(cartesian_to_geodetic 6378.137 0 0).1| ≤ 1e-5 ∧
    |(cartesian_to_geodetic 6378.137 0 0).2.1| ≤ 1e-5 ∧
    |(cartesian_to_geodetic 6378.137 0 0).2.2| ≤ 0.01 := by
  have ha : (6378.137 : ℝ) * 1000 = a := by norm_num [a]
  have hp : pOf 6378.137 0 = a := by
    rw [pOf]
    have harg : ((6378.137 : ℝ) * 1000) * ((6378.137 : ℝ) * 1000) + (0 * 1000) * (0 * 1000)
        = a * a := by norm_num [a]
    rw [harg, Real.sqrt_mul_self (le_of_lt a_pos)]
  have hlat0 : atan2 ((0 : ℝ) * 1000) (a * (1 - e2)) = 0 := by
    rw [zero_mul, atan2_zero_of_pos a_mul_one_sub_e2_pos]
  have hlon : atan2 ((0 : ℝ) * 1000) ((6378.137 : ℝ) * 1000) = 0 := by
    rw [zero_mul, ha, atan2_zero_of_pos a_pos]
  have hstep : geoStep ((0 : ℝ) * 1000) a (0, 0) = (0, 0) := by
    rw [zero_mul]
    exact geoStep_zero_fixed
  have h : cartesian_to_geodetic 6378.137 0 0 = (0, 0, 0) := by
    simp only [cartesian_to_geodetic, hp, hlat0, hlon]
    rw [Function.iterate_fixed hstep 5]
    simp [degrees_zero]
  rw [h]
  norm_num

lemma geodetic_to_cartesian_zero_zero (alt : ℝ) :
    geodetic_to_cartesian 0 0 alt = ((a + alt * 1000) / 1000, 0, 0) := by
  simp only [geodetic_to_cartesian, radians_zero, Real.sin_zero, Real.cos_zero]
  norm_num [Real.sqrt_one]

lemma distOrigin_geodetic (lat lon alt : ℝ) :
    distOrigin (geodetic_to_cartesian lat lon alt) =
      Real.sqrt (((Nof (radians lat) + alt * 1000) ^ 2 * Real.cos (radians lat) ^ 2 +
        (Nof (radians lat) * (1 - e2) + alt * 1000) ^ 2 * Real.sin (radians lat) ^ 2)
        / 1000 ^ 2) := by
  simp only [distOrigin, geodetic_to_cartesian, Nof]
  congr 1
  have hlon := Real.sin_sq_add_cos_sq (radians lon)
  linear_combination
    ((a / Real.sqrt (1 - e2 * Real.sin (radians lat) * Real.sin (radians lat)) + alt * 1000) ^ 2
      * Real.cos (radians lat) ^ 2 / 1000 ^ 2) * hlon

lemma Nof_ge_a (t : ℝ) : a ≤ Nof t := by
  have hq1 : 0 < 1 - e2 * Real.sin t * Real.sin t := one_sub_e2_sin_sq_pos t
  have hqpos : 0 < Real.sqrt (1 - e2 * Real.sin t * Real.sin t) := Real.sqrt_pos.mpr hq1
  have hle : 1 - e2 * Real.sin t * Real.sin t ≤ 1 := by
    nlinarith [e2_pos, mul_self_nonneg (Real.sin t)]
  have hqle1 : Real.sqrt (1 - e2 * Real.sin t * Real.sin t) ≤ 1 := by
    calc Real.sqrt (1 - e2 * Real.sin t * Real.sin t) ≤ Real.sqrt 1 :=
          Real.sqrt_le_sqrt hle
      _ = 1 := Real.sqrt_one
  rw [Nof, le_div_iff₀ hqpos]
  nlinarith [a_pos]

lemma a_one_sub_e2_lb : (6335000 : ℝ) ≤ a * (1 - e2) := by
  norm_num [a, e2, f]

/-- Claim C8 counterexample: altitude monotonicity fails for arbitrary
altitude pairs.  At `lat = lon = 0`, the altitudes `-10000 < -6378.137` km
give Cartesian points at distances `3621.863` km and `0` km from the
origin, so the distance strictly decreases. -/
theorem distOrigin_not_monotone_counterexample :
    (-10000 : ℝ) < -6378.137 ∧
    ¬ distOrigin (geodetic_to_cartesian 0 0 (-10000)) <
        distOrigin (geodetic_to_cartesian 0 0 (-6378.137)) := by
  refine ⟨by norm_num, ?_⟩
  have h1 : geodetic_to_cartesian 0 0 (-10000) = (-3621.863, 0, 0) := by
    rw [geodetic_to_cartesian_zero_zero]
    norm_num [a]
  have h2 : geodetic_to_cartesian 0 0 (-6378.137) = (0, 0, 0) := by
    rw [geodetic_to_cartesian_zero_zero]
    norm_num [a]
  rw [h1, h2]
  simp only [distOrigin]
  norm_num [Real.sqrt_zero]
  positivity

/-- Claim C8 amended: monotonicity of the distance from the origin in
altitude holds for altitudes at or above `-6335` km (in particular for all
physically meaningful ones): for a fixed latitude and longitude and
`-6335 ≤ alt1 < alt2`, the Cartesian point of `alt2` is strictly farther
from the origin than that of `alt1`. -/
theorem distOrigin_strict_mono_in_altitude (lat lon a1 a2 : ℝ)
    (h1 : -6335 ≤ a1) (h2 : a1 < a2) :
    distOrigin (geodetic_to_cartesian lat lon a1) <
      distOrigin (geodetic_to_cartesian lat lon a2) := by
  rw [distOrigin_geodetic, distOrigin_geodetic]
  have hNa := Nof_ge_a (radians lat)
  have hNpos : 0 < Nof (radians lat) := lt_of_lt_of_le a_pos hNa
  have hblb : (6335000 : ℝ) ≤ Nof (radians lat) * (1 - e2) := by
    have := a_one_sub_e2_lb
    nlinarith [e2_lt_one]
  have ht12 : a1 * 1000 < a2 * 1000 := by linarith
  have ht1 : (-6335000 : ℝ) ≤ a1 * 1000 := by linarith
  have hbt1 : 0 ≤ Nof (radians lat) * (1 - e2) + a1 * 1000 := by linarith
  have hNt1 : 0 < Nof (radians lat) + a1 * 1000 := by nlinarith [e2_pos]
  have hdN : (Nof (radians lat) + a1 * 1000) ^ 2 < (Nof (radians lat) + a2 * 1000) ^ 2 :=
    pow_lt_pow_left₀ (by linarith) (le_of_lt hNt1) two_ne_zero
  have hdb : (Nof (radians lat) * (1 - e2) + a1 * 1000) ^ 2 <
      (Nof (radians lat) * (1 - e2) + a2 * 1000) ^ 2 :=
    pow_lt_pow_left₀ (by linarith) hbt1 two_ne_zero
  apply Real.sqrt_lt_sqrt
  · positivity
  · have hc2 := Real.sin_sq_add_cos_sq (radians lat)
    rcases eq_or_ne (Real.cos (radians lat)) 0 with hc | hc
    · have hs : Real.sin (radians lat) ^ 2 = 1 := by nlinarith [hc2]
      rw [hc, hs]
      norm_num
      nlinarith [hdb]
    · have hc2pos : 0 < Real.cos (radians lat) ^ 2 := pow_two_pos_of_ne_zero hc
      have hP1 : 0 < Real.cos (radians lat) ^ 2 *
          ((Nof (radians lat) + a2 * 1000) ^ 2 - (Nof (radians lat) + a1 * 1000) ^ 2) :=
        mul_pos hc2pos (by linarith)
      have hP2 : 0 ≤ Real.sin (radians lat) ^ 2 *
          ((Nof (radians lat) * (1 - e2) + a2 * 1000) ^ 2 -
           (Nof (radians lat) * (1 - e2) + a1 * 1000) ^ 2) :=
        mul_nonneg (sq_nonneg _) (by linarith)
      have h1000 : (0 : ℝ) < 1000 ^ 2 := by norm_num
      rw [div_lt_div_iff₀ h1000 h1000]
      nlinarith [hP1, hP2]

/-- Witness for the amended claim C8 at `lat = lon = 0`, `alt1 = 0`,
`alt2 = 1`. -/
theorem distOrigin_strict_mono_in_altitude_witness :
    distOrigin (geodetic_to_cartesian 0 0 0) < distOrigin (geodetic_to_cartesian 0 0 1) :=
  distOrigin_strict_mono_in_altitude 0 0 0 1 (by norm_num) (by norm_num)

lemma atan2_of_pos {y x : ℝ} (hx : 0 < x) : atan2 y x = Real.arctan (y / x) := by
  simp [atan2, hx]

lemma atan2_pos_left {y : ℝ} (hy : 0 < y) : atan2 y 0 = Real.pi / 2 := by
  norm_num [atan2, hy]

noncomputable section

/-- The prime-vertical radius at the latitude `arctan (3/4)`; used to build
the totality counterexample for claim C5. -/
def Nv : ℝ := a / Real.sqrt (1 - e2 * (3 / 5) * (3 / 5))

/-- Meter-level `p` of the counterexample input: chosen so that after one
refinement pass, `p * (1 - e2 * N / (N + alt))` is exactly zero. -/
def p0c : ℝ := e2 * Nv * (4 / 5)

/-- Kilometer x-coordinate of the counterexample input for claim C5. -/
def cexX : ℝ := p0c / 1000

/-- Kilometer z-coordinate of the counterexample input for claim C5:
chosen so the initial latitude is exactly `arctan (3/4)`. -/
def cexZ : ℝ := (3 / 4) * (p0c * (1 - e2)) / 1000

end

lemma sqrt_one_add_nine_sixteenths : Real.sqrt (1 + (3 / 4 : ℝ) ^ 2) = 5 / 4 := by
  rw [show (1 + (3 / 4 : ℝ) ^ 2) = (5 / 4) ^ 2 by norm_num]
  exact Real.sqrt_sq (by norm_num)

lemma sin_arctan_three_quarters : Real.sin (Real.arctan (3 / 4)) = 3 / 5 := by
  rw [Real.sin_arctan, sqrt_one_add_nine_sixteenths]
  norm_num

lemma cos_arctan_three_quarters : Real.cos (Real.arctan (3 / 4)) = 4 / 5 := by
  rw [Real.cos_arctan, sqrt_one_add_nine_sixteenths]
  norm_num

lemma Nv_pos : 0 < Nv := by
  rw [Nv]
  apply div_pos a_pos
  apply Real.sqrt_pos.mpr
  nlinarith [e2_pos, e2_lt_one]

lemma p0c_pos : 0 < p0c := by
  rw [p0c]
  exact mul_pos (mul_pos e2_pos Nv_pos) (by norm_num)

/-- Claim C5 counterexample: totality away from `p = 0` fails.  At the
explicit input `(cexX, 0, cexZ)` (which has `x² + y² > 0`), the second
refinement pass computes latitude exactly `π/2`, whose cosine is zero, so
the division `p / cos lat` of that pass divides by zero. -/
theorem cartesian_to_geodetic_totality_counterexample :
    0 < cexX * cexX + (0 : ℝ) * 0 ∧ ¬ CartGeoDefined cexX 0 cexZ := by
  have hcex : 0 < cexX := by
    rw [cexX]
    exact div_pos p0c_pos (by norm_num)
  refine ⟨by nlinarith, ?_⟩
  intro h
  have hk := ((h.2) 1 (by norm_num)).2.1
  apply hk
  have hx1000 : cexX * 1000 = p0c := by
    rw [cexX, div_mul_cancel₀ _ (by norm_num : (1000 : ℝ) ≠ 0)]
  have hz1000 : cexZ * 1000 = (3 / 4) * (p0c * (1 - e2)) := by
    rw [cexZ, div_mul_cancel₀ _ (by norm_num : (1000 : ℝ) ≠ 0)]
  have hp : pOf cexX 0 = p0c := by
    rw [pOf, hx1000]
    rw [show p0c * p0c + ((0 : ℝ) * 1000) * ((0 : ℝ) * 1000) = p0c * p0c by ring]
    exact Real.sqrt_mul_self p0c_pos.le
  have hpe2 : 0 < p0c * (1 - e2) := mul_pos p0c_pos (by nlinarith [e2_lt_one])
  have hl0 : atan2 (cexZ * 1000) (pOf cexX 0 * (1 - e2)) = Real.arctan (3 / 4) := by
    rw [hp, hz1000, atan2_of_pos hpe2, mul_div_assoc, div_self (ne_of_gt hpe2), mul_one]
  have hNof : Nof (Real.arctan (3 / 4)) = Nv := by
    rw [Nof, sin_arctan_three_quarters, Nv]
  have hNalt : Nof (Real.arctan (3 / 4)) + altOf p0c (Real.arctan (3 / 4)) = e2 * Nv := by
    rw [altOf, hNof, cos_arctan_three_quarters, p0c]
    field_simp
  have hz0 : 0 < cexZ * 1000 := by
    rw [hz1000]
    exact mul_pos (by norm_num) hpe2
  have hlat1 : latAt cexX 0 cexZ 1 = Real.pi / 2 := by
    rw [latAt, Function.iterate_one]
    show (geoStep (cexZ * 1000) (pOf cexX 0)
      (atan2 (cexZ * 1000) (pOf cexX 0 * (1 - e2)), 0)).1 = Real.pi / 2
    rw [hl0, geoStep]
    simp only
    rw [hp, hNalt, hNof]
    rw [show e2 * Nv / (e2 * Nv) = 1 from div_self (ne_of_gt (mul_pos e2_pos Nv_pos))]
    rw [show (1 : ℝ) - 1 = 0 by norm_num, mul_zero]
    exact atan2_pos_left hz0
  rw [hlat1]
  exact Real.cos_pi_div_two

/-- Claim C5 amended: for every input with `x² + y² > 0`, the first
refinement pass of `cartesian_to_geodetic` is well-defined — its
square-root argument is positive and both of its divisors, `cos lat` and
`N + alt`, are nonzero.  (Well-definedness of all five passes fails in
general; see the counterexample.) -/
theorem cartesian_to_geodetic_first_pass_safe (x y z : ℝ) (h : 0 < x * x + y * y) :
    0 < 1 - e2 * Real.sin (latAt x y z 0) * Real.sin (latAt x y z 0) ∧
    Real.cos (latAt x y z 0) ≠ 0 ∧
    Nof (latAt x y z 0) + altOf (pOf x y) (latAt x y z 0) ≠ 0 := by
  have hparg : 0 < (x * 1000) * (x * 1000) + (y * 1000) * (y * 1000) := by nlinarith
  have hppos : 0 < pOf x y := Real.sqrt_pos.mpr hparg
  have hlat0 : latAt x y z 0 = Real.arctan ((z * 1000) / (pOf x y * (1 - e2))) := by
    rw [latAt, Function.iterate_zero_apply]
    exact atan2_of_pos (mul_pos hppos (by nlinarith [e2_lt_one]))
  have hcos : 0 < Real.cos (latAt x y z 0) := by
    rw [hlat0]
    exact Real.cos_arctan_pos _
  refine ⟨one_sub_e2_sin_sq_pos _, ne_of_gt hcos, ?_⟩
  rw [altOf, show Nof (latAt x y z 0) +
      (pOf x y / Real.cos (latAt x y z 0) - Nof (latAt x y z 0)) =
      pOf x y / Real.cos (latAt x y z 0) by ring]
  exact ne_of_gt (div_pos hppos hcos)

/-- Witness for the amended claim C5 at the input `(1, 0, 0)`. -/
theorem cartesian_to_geodetic_first_pass_safe_witness :
    0 < 1 - e2 * Real.sin (latAt 1 0 0 0) * Real.sin (latAt 1 0 0 0) ∧
    Real.cos (latAt 1 0 0 0) ≠ 0 ∧
    Nof (latAt 1 0 0 0) + altOf (pOf 1 0) (latAt 1 0 0 0) ≠ 0 :=
  cartesian_to_geodetic_first_pass_safe 1 0 0 (by norm_num)

end CoordinateConverter

namespace SatelliteDataManager

/-- Result of a data-manager call in the embedding: either a returned
JSON-like dictionary (modeled as key/value pairs) or an outgoing HTTP GET,
abstracted as the endpoint name together with its raw numeric arguments,
string arguments and API key (the embedding does not model network I/O or
float-to-string formatting of the URL). -/
inductive ApiAction where
  | ret (fields : List (String × String))
  | http (endpoint : String) (numArgs : List ℝ) (strArgs : List String) (apiKey : String)

/-- The mutable manager state: `self.n2yo_api_key`, which Python may hold
as `None` or as a string (the config default is `""`). -/
structure Manager where
  n2yo_api_key : Option String

/-- Python truthiness test `not self.n2yo_api_key` for the stored key:
true exactly when the key is `None` or the empty string. -/
def keyFalsy : Option String → Bool
  | none => true
  | some s => s == ""

/-- Embedding of `SatelliteDataManager.get_satellites_above`: the guard
returns the error dictionary before any request is built; otherwise the
call performs an HTTP GET against the `above` endpoint. -/
def get_satellites_above (m : Manager) (lat lon alt radius : ℝ)
    (category : String) : ApiAction :=
  if keyFalsy m.n2yo_api_key then
    ApiAction.ret [("error", "N2YO API key not set")]
  else
    ApiAction.http "above" [lat, lon, alt, radius] [category] (m.n2yo_api_key.getD "")

/-- Embedding of `SatelliteDataManager.get_satellite_positions`: same
guard, then an HTTP GET against the `positions` endpoint. -/
def get_satellite_positions (m : Manager) (norad_id : ℤ) (lat lon alt : ℝ)
    (seconds : ℤ) : ApiAction :=
  if keyFalsy m.n2yo_api_key then
    ApiAction.ret [("error", "N2YO API key not set")]
  else
    ApiAction.http "positions" [(norad_id : ℝ), lat, lon, alt, (seconds : ℝ)] []
      (m.n2yo_api_key.getD "")

/-- Whether an `ApiAction` issues an HTTP request. -/
def issuesHttp : ApiAction → Bool
  | .ret _ => false
  | .http _ _ _ _ => true

/-- Claim C9: when the stored N2YO API key is unset (`None` or empty),
both `get_satellites_above` and `get_satellite_positions` return the
dictionary `[("error", "N2YO API key not set")]` and issue no HTTP
request, for every combination of their other arguments. -/
theorem api_key_unset_returns_error (m : Manager) (lat lon alt radius : ℝ)
    (category : String) (norad_id seconds : ℤ)
    (h : keyFalsy m.n2yo_api_key = true) :
    get_satellites_above m lat lon alt radius category =
      ApiAction.ret [("error", "N2YO API key not set")] ∧
    issuesHttp (get_satellites_above m lat lon alt radius category) = false ∧
    get_satellite_positions m norad_id lat lon alt seconds =
      ApiAction.ret [("error", "N2YO API key not set")] ∧
    issuesHttp (get_satellite_positions m norad_id lat lon alt seconds) = false := by
  simp [get_satellites_above, get_satellite_positions, issuesHttp, h]

/-- Witness for claim C9 at the config-default manager (empty-string key)
with concrete arguments. -/
theorem api_key_unset_returns_error_witness :
    get_satellites_above ⟨some ""⟩ 40 (-74) 0 100 "0" =
      ApiAction.ret [("error", "N2YO API key not set")] ∧
    issuesHttp (get_satellites_above ⟨some ""⟩ 40 (-74) 0 100 "0") = false ∧
    get_satellite_positions ⟨some ""⟩ 25544 40 (-74) 0 2 =
      ApiAction.ret [("error", "N2YO API key not set")] ∧
    issuesHttp (get_satellite_positions ⟨some ""⟩ 25544 40 (-74) 0 2) = false :=
  api_key_unset_returns_error ⟨some ""⟩ 40 (-74) 0 100 "0" 25544 2 (by rfl)

/-- A parsed TLE record as built by `parse_tle`. -/
structure TleSat where
  name : String
  norad_id : ℤ
  line1 : String
  line2 : String
deriving DecidableEq

/-- Python string slice `s[i:j]` (character indices, clamped at the end of
the string). -/
def pySlice (s : String) (i j : ℕ) : String :=
  ((s.toList.drop i).take (j - i)).asString

/-- The ASCII whitespace characters Python's `str.strip()` removes. -/
def isPySpace (c : Char) : Bool :=
  c == ' ' || c == '\t' || c == '\n' || c == '\r' || c == '\x0b' || c == '\x0c'

/-- Model of Python `str.strip()`: remove leading and trailing
whitespace. -/
def pyStrip (s : String) : String :=
  (((s.toList.dropWhile isPySpace).reverse.dropWhile isPySpace).reverse).asString

/-- Value of a list of decimal digit characters. -/
def digitsToInt (cs : List Char) : ℤ :=
  cs.foldl (fun acc c => acc * 10 + ((c.toNat - '0'.toNat : ℕ) : ℤ)) 0

/-- Model of Python's `int(...)` applied to a string: surrounding
whitespace is stripped, an optional sign is allowed, and the remainder
must be a nonempty run of decimal digits; `none` models a raised
`ValueError`. -/
def parseIntPy (s : String) : Option ℤ :=
  match (pyStrip s).toList with
  | [] => none
  | '+' :: ds =>
    if ds ≠ [] ∧ ds.all Char.isDigit then some (digitsToInt ds) else none
  | '-' :: ds =>
    if ds ≠ [] ∧ ds.all Char.isDigit then some (-digitsToInt ds) else none
  | ds =>
    if ds.all Char.isDigit then some (digitsToInt ds) else none

/-- Embedding of `SatelliteDataManager.parse_tle`: the loop walks the
lines three at a time (`range(0, len, 3)` with the `i + 2 < len` guard
dropping a trailing incomplete triple), strips the name line, keeps the
two element lines verbatim, and parses `line1[2:7]` as the NORAD id;
`none` models the uncaught `ValueError` Python raises when that slice is
not an integer. -/
def parse_tle : List String → Option (List TleSat)
  | nm :: l1 :: l2 :: rest =>
    match parseIntPy (pySlice l1 2 7), parse_tle rest with
    | some nid, some sats =>
      some ({ name := pyStrip nm, norad_id := nid, line1 := l1, line2 := l2 } :: sats)
    | _, _ => none
  | _ => some []

/-- Decidable statement that every complete triple's NORAD-ID field parses
as an integer (the hypothesis of claim C10). -/
def triplesOk : List String → Bool
  | _ :: l1 :: _ :: rest => (parseIntPy (pySlice l1 2 7)).isSome && triplesOk rest
  | _ => true

/-- The record list described by claim C10: exactly `⌊n/3⌋` records, the
`k`-th built from lines `3k`, `3k+1`, `3k+2` with the name stripped and
the NORAD id parsed from characters 2–6 of line `3k+1`. -/
def parse_tle_spec (lines : List String) : List TleSat :=
  (List.range (lines.length / 3)).map fun k =>
    { name := pyStrip (lines.getD (3 * k) "")
      norad_id := (parseIntPy (pySlice (lines.getD (3 * k + 1) "") 2 7)).getD 0
      line1 := lines.getD (3 * k + 1) ""
      line2 := lines.getD (3 * k + 2) "" }

lemma parse_tle_spec_cons (nm l1 l2 : String) (rest : List String) :
    parse_tle_spec (nm :: l1 :: l2 :: rest) =
      { name := pyStrip nm,
        norad_id := (parseIntPy (pySlice l1 2 7)).getD 0,
        line1 := l1, line2 := l2 } :: parse_tle_spec rest := by
  unfold parse_tle_spec
  have hlen : (nm :: l1 :: l2 :: rest).length / 3 = rest.length / 3 + 1 := by
    simp only [List.length_cons]
    omega
  rw [hlen, List.range_succ_eq_map, List.map_cons, List.map_map]
  congr 1

/-- Claim C10: whenever every complete triple's NORAD-ID field parses,
`parse_tle` succeeds and returns exactly the list of records described by
`parse_tle_spec` — one record per complete triple, in input order, with
the trailing incomplete triple silently dropped. -/
theorem parse_tle_complete_triples (lines : List String)
    (h : triplesOk lines = true) :
    parse_tle lines = some (parse_tle_spec lines) := by
  have H : ∀ n (ls : List String), ls.length ≤ n → triplesOk ls = true →
      parse_tle ls = some (parse_tle_spec ls) := by
    intro n
    induction n with
    | zero =>
      intro ls hl _
      have : ls = [] := List.eq_nil_of_length_eq_zero (Nat.le_zero.mp hl)
      subst this
      rfl
    | succ n ih =>
      intro ls hl ht
      match ls with
      | [] => rfl
      | [x1] => simp [parse_tle, parse_tle_spec]
      | [x1, x2] => simp [parse_tle, parse_tle_spec]
      | nm :: l1 :: l2 :: rest =>
        rw [triplesOk, Bool.and_eq_true] at ht
        obtain ⟨h1, h2⟩ := ht
        obtain ⟨nid, hnid⟩ := Option.isSome_iff_exists.mp h1
        have hrest : parse_tle rest = some (parse_tle_spec rest) := by
          apply ih rest _ h2
          simp only [List.length_cons] at hl
          omega
        rw [parse_tle, hnid, hrest, parse_tle_spec_cons, hnid]
        rfl
  exact H lines.length lines le_rfl h

/-- A concrete TLE input: one complete triple followed by a trailing
incomplete line. -/
def demoTle : List String :=
  ["ISS (ZARYA)", "1 25544U 98067A  ", "2 25544  51.6400", "extra"]

/-- Witness for claim C10 on `demoTle`. -/
theorem parse_tle_complete_triples_witness :
    parse_tle demoTle = some (parse_tle_spec demoTle) :=
  parse_tle_complete_triples demoTle (by decide)

end SatelliteDataManager
